import Mathlib

/-!
Verification of the stock-opportunity-engine scan pipeline and scoring
engine (`app/stock_mvp`), shallowly embedded in Lean 4.

Python floats are modelled as rationals (`ℚ`), dates as integers (days),
timestamps as rationals (days).  Dictionaries with a fixed key set become
structures; the open-ended `event_weights` mapping becomes an association
list with a default of 0 on missing keys, mirroring `dict.get(k, 0)`.
-/

namespace StockMvp

/-- Modelled from the spec: `app.stock_mvp.utils.math_utils.clamp`, which is
not under `src/` (only its callers are).  The spec uses
`clamp(x, lo, hi)` throughout to mean bounding `x` into the interval
`[lo, hi]` ("clamped [0,100]", "floored at 0"). -/
def clamp (x lo hi : ℚ) : ℚ := max lo (min x hi)

/-- Source `app/stock_mvp/models/schemas.py`: `StockSnapshot`.  `metrics` is
an open-ended string-to-float mapping, modelled as an association list. -/
structure StockSnapshot where
  symbol : String
  name : String
  exchange : String
  sector : String
  market_cap_cr : ℚ
  pe : ℚ
  profit_ttm_cr : ℚ
  profit_prev_ttm_cr : ℚ
  profit_q1_cr : ℚ
  profit_q2_cr : ℚ
  profit_q3_cr : ℚ
  profit_q4_cr : ℚ
  promoter_holding_pct : ℚ
  pledge_pct : ℚ
  hni_net_buying_cr : ℚ
  esm_flag : Bool
  governance_flag : Bool
  metrics : List (String × ℚ) := []
deriving Repr, DecidableEq

/-- Source `app/stock_mvp/models/schemas.py`: `StockEvent`; `event_date` is
a calendar date, modelled as a day number (ℤ). -/
structure StockEvent where
  symbol : String
  event_type : String
  event_date : ℤ
  value_cr : ℚ
  headline : String
deriving Repr, DecidableEq

/-- The five factor weights of the rules' `weights` section. -/
structure Weights where
  profit_trend : ℚ
  valuation : ℚ
  future_events : ℚ
  quality : ℚ
  risk : ℚ
deriving Repr, DecidableEq

/-- The rules' `filters` section.  Each key may be absent (`none`); every
reader applies its own default via `dict.get(key, default)`, exactly as in
the Python (`scoring.py` defaults `max_pe` to 40, `pipeline.py` to 1e9). -/
structure Filters where
  max_pe : Option ℚ := none
  max_pledge_pct : Option ℚ := none
  exclude_esm : Option Bool := none
  exclude_loss_making : Option Bool := none
  min_profit_ttm_cr : Option ℚ := none
  min_profit_yoy_growth_pct : Option ℚ := none
deriving Repr, DecidableEq

/-- The rules' `universe` section. -/
structure UniverseRules where
  min_market_cap_cr : Option ℚ := none
  max_market_cap_cr : Option ℚ := none
  exchanges : List String := []
  sectors_allowlist : List String := []
deriving Repr, DecidableEq

/-- The validated rules object consumed by the pipeline and the score
engine: the sections the embedded core reads. -/
structure Rules where
  weights : Weights
  event_weights : List (String × ℚ) := []
  filters : Filters := {}
  «universe» : UniverseRules := {}
  max_recommendations_per_run : Option ℕ := none
deriving Repr, DecidableEq

/-- Python `dict.get(key, 0)` on the `event_weights` mapping. -/
def lookupEventWeight (ws : List (String × ℚ)) (k : String) : ℚ :=
  match ws.find? (fun p => p.1 == k) with
  | some p => p.2
  | none => 0

/-- Source `scoring.py` line 104:
`max_pe = float(self.rules["filters"].get("max_pe", 40))`. -/
def valuationMaxPe (rules : Rules) : ℚ := rules.filters.max_pe.getD 40

/-- Source `scoring.py`, `_valuation_score` (lines 102–116), score
component: branches on `stock.pe` against 0, 20 and the configured
`max_pe`. -/
def valuationScore (rules : Rules) (stock : StockSnapshot) : ℚ :=
  if stock.pe ≤ 0 then 100
  else if stock.pe ≤ 20 then 100
  else if stock.pe ≤ valuationMaxPe rules then
    clamp (100 - ((stock.pe - 20) / max 1 (valuationMaxPe rules - 20)) * 40) 45 100
  else
    clamp (45 - ((stock.pe - valuationMaxPe rules) * 2)) 0 45

/-- Abstract stand-in for Python's fixed-point float rendering used inside
reason strings (`f"{x:.1f}"`).  No claim depends on the numeric rendering of
a reason string, only on literal reason strings and on how many reasons are
emitted, which this preserves. -/
def fmtFixed1 (q : ℚ) : String := toString q

/-- Python's banker's rounding (`round`) of a rational to the nearest
integer, ties to even. -/
def roundHalfEven (q : ℚ) : ℤ :=
  if q - (⌊q⌋ : ℚ) < 1/2 then ⌊q⌋
  else if 1/2 < q - (⌊q⌋ : ℚ) then ⌊q⌋ + 1
  else if ⌊q⌋ % 2 = 0 then ⌊q⌋ else ⌊q⌋ + 1

/-- Python `round(x, 2)`: round to two decimal places, ties to even. -/
def pyRound2 (q : ℚ) : ℚ := (roundHalfEven (q * 100) : ℚ) / 100

/-- Source `scoring.py`, `_profit_trend_score` lines 84–87: year-over-year
profit growth with the zero-baseline rule. -/
def yoyGrowthPct (stock : StockSnapshot) : ℚ :=
  if stock.profit_prev_ttm_cr ≤ 0 then
    if 0 < stock.profit_ttm_cr then 100 else 0
  else
    ((stock.profit_ttm_cr - stock.profit_prev_ttm_cr) / |stock.profit_prev_ttm_cr|) * 100

/-- Source `pipeline.py`, `_apply_quality_filters` lines 139–142: the same
zero-baseline year-over-year growth rule, written with the branches in the
opposite order. -/
def pipelineYoyGrowthPct (s : StockSnapshot) : ℚ :=
  if 0 < s.profit_prev_ttm_cr then
    ((s.profit_ttm_cr - s.profit_prev_ttm_cr) / |s.profit_prev_ttm_cr|) * 100
  else
    if 0 < s.profit_ttm_cr then 100 else 0

/-- Source `scoring.py` line 90: number of non-decreasing consecutive
quarter-over-quarter steps among q1→q2→q3→q4 (`q[i] >= q[i-1]`). -/
def increasingSteps (stock : StockSnapshot) : ℕ :=
  (if stock.profit_q1_cr ≤ stock.profit_q2_cr then 1 else 0) +
  (if stock.profit_q2_cr ≤ stock.profit_q3_cr then 1 else 0) +
  (if stock.profit_q3_cr ≤ stock.profit_q4_cr then 1 else 0)

/-- Source `scoring.py`, `_profit_trend_score` (lines 81–100), score
component. -/
def profitTrendScore (stock : StockSnapshot) : ℚ :=
  let consistency_score := ((increasingSteps stock : ℚ) / 3) * 100
  let growth_score := clamp (yoyGrowthPct stock) (-50) 100
  let growth_score_normalized := ((growth_score + 50) / 150) * 100
  clamp ((7/10) * growth_score_normalized + (3/10) * consistency_score) 0 100

/-- Reasons emitted by `_profit_trend_score`. -/
def profitTrendReasons (stock : StockSnapshot) : List String :=
  ["Profit YoY growth: " ++ fmtFixed1 (yoyGrowthPct stock) ++ "%",
   "Quarterly trend consistency: " ++ toString (increasingSteps stock) ++ "/3"]

/-- Reasons emitted by `_valuation_score`. -/
def valuationReasons (rules : Rules) (stock : StockSnapshot) : List String :=
  ["PE: " ++ fmtFixed1 stock.pe ++ " (max configured: " ++ fmtFixed1 (valuationMaxPe rules) ++ ")"]

/-- Source `scoring.py` line 130: `age_days = max(0, (date.today() - e.event_date).days)`. -/
def ageDays (today : ℤ) (e : StockEvent) : ℤ := max 0 (today - e.event_date)

/-- Source `scoring.py` line 131: `recency = clamp(1.0 - (age_days / 90.0), 0.35, 1.0)`. -/
def recencyFactor (today : ℤ) (e : StockEvent) : ℚ :=
  clamp (1 - ((ageDays today e : ℚ) / 90)) (35/100) 1

/-- Loop body of `_future_event_score` (lines 126–133): skip events whose
configured weight is non-positive, otherwise accumulate weight × recency and
record a label for the event. -/
def eventStep (rules : Rules) (today : ℤ) (acc : ℚ × List String) (e : StockEvent) :
    ℚ × List String :=
  let base := lookupEventWeight rules.event_weights e.event_type
  if base ≤ 0 then acc
  else (acc.1 + base * recencyFactor today e,
        acc.2 ++ [e.event_type ++ " (" ++ toString e.event_date ++ ")"])

/-- Source `scoring.py`, `_future_event_score` (lines 118–138): returns the
score and the emitted reasons. -/
def futureEventScore (rules : Rules) (today : ℤ) (events : List StockEvent) :
    ℚ × List String :=
  if events.isEmpty then (0, ["No recent qualifying events"])
  else
    let acc := events.foldl (eventStep rules today) (0, [])
    (clamp acc.1 0 100,
     if acc.2.isEmpty then []
     else ["Recent events: " ++ String.intercalate ", " (acc.2.take 3)])

/-- Source `scoring.py`, `_quality_score` (lines 140–154), score component. -/
def qualityScore (stock : StockSnapshot) : ℚ :=
  let promoter_score := clamp ((stock.promoter_holding_pct / 75) * 100) 0 100
  let hni_score := clamp ((stock.hni_net_buying_cr / 20) * 100) 0 100
  let pledge_penalty := clamp ((stock.pledge_pct / 50) * 100) 0 100
  clamp ((55/100) * promoter_score + (45/100) * hni_score - (35/100) * pledge_penalty) 0 100

/-- Reasons emitted by `_quality_score`. -/
def qualityReasons (stock : StockSnapshot) : List String :=
  ["Promoter holding: " ++ fmtFixed1 stock.promoter_holding_pct ++ "%",
   "HNI net buying: " ++ fmtFixed1 stock.hni_net_buying_cr ++ " cr"] ++
  (if 0 < stock.pledge_pct then ["Pledge: " ++ fmtFixed1 stock.pledge_pct ++ "%"] else [])

/-- Source `scoring.py` line 168:
`max_pledge = float(self.rules["filters"].get("max_pledge_pct", 40))`. -/
def riskMaxPledge (rules : Rules) : ℚ := rules.filters.max_pledge_pct.getD 40

/-- Condition of the sharp-profit-drop penalty (lines 173–177). -/
def sharpProfitDrop (stock : StockSnapshot) : Prop :=
  0 < stock.profit_prev_ttm_cr ∧
    ((stock.profit_ttm_cr - stock.profit_prev_ttm_cr) / |stock.profit_prev_ttm_cr|) * 100 < -30

instance (stock : StockSnapshot) : Decidable (sharpProfitDrop stock) := by
  unfold sharpProfitDrop; infer_instance

/-- Source `scoring.py`, `_risk_penalty` (lines 156–179), penalty component:
flat additive penalties, clamped to [0,100]. -/
def riskPenalty (rules : Rules) (stock : StockSnapshot) : ℚ :=
  let p1 : ℚ := if stock.esm_flag then 50 else 0
  let p2 : ℚ := if stock.governance_flag then 35 else 0
  let p3 : ℚ := if riskMaxPledge rules < stock.pledge_pct then 25 else 0
  let p4 : ℚ := if sharpProfitDrop stock then 30 else 0
  clamp (p1 + p2 + p3 + p4) 0 100

/-- Reasons emitted by `_risk_penalty`. -/
def riskReasons (rules : Rules) (stock : StockSnapshot) : List String :=
  (if stock.esm_flag then ["Risk: ESM/ASM-like flag present"] else []) ++
  (if stock.governance_flag then ["Risk: governance red flag"] else []) ++
  (if riskMaxPledge rules < stock.pledge_pct then
    ["Risk: pledge above threshold (" ++ fmtFixed1 stock.pledge_pct ++ "% > " ++
      fmtFixed1 (riskMaxPledge rules) ++ "%)"] else []) ++
  (if sharpProfitDrop stock then
    ["Risk: sharp profit drop (" ++ fmtFixed1 (yoyGrowthPct stock) ++ "%)"] else [])

/-- The five named sub-scores recorded in `ScoredStock.score_breakdown`. -/
structure ScoreBreakdown where
  profit_trend : ℚ
  valuation : ℚ
  future_events : ℚ
  quality : ℚ
  risk_penalty : ℚ
deriving Repr, DecidableEq

/-- Source `app/stock_mvp/models/schemas.py`: `ScoredStock`. -/
structure ScoredStock where
  symbol : String
  name : String
  exchange : String
  sector : String
  market_cap_cr : ℚ
  pe : ℚ
  final_score : ℚ
  score_breakdown : ScoreBreakdown
  reasons : List String
  event_count : ℕ
  metrics : List (String × ℚ) := []
deriving Repr, DecidableEq

/-- Source `scoring.py` lines 32–37: sum of the four positive factor
weights. -/
def positiveWeightSum (w : Weights) : ℚ :=
  w.profit_trend + w.valuation + w.future_events + w.quality

/-- Source `scoring.py` lines 39–44: weighted positive factor average. -/
def weightedPositive (w : Weights) (profit_score valuation_score event_score quality_score : ℚ) : ℚ :=
  (profit_score * w.profit_trend + valuation_score * w.valuation +
    event_score * w.future_events + quality_score * w.quality) / positiveWeightSum w

/-- Source `scoring.py` line 46: `risk_penalty * (weights["risk"] / 100.0)`. -/
def weightedRisk (w : Weights) (risk_penalty : ℚ) : ℚ := risk_penalty * (w.risk / 100)

/-- Per-stock body of `ScoreEngine.score` (lines 23–77): the five sub-scores,
the weighted combination, the clamped final score, and the assembled
`ScoredStock` (scores rounded to two decimals, reasons truncated to 10,
`event_count` counting all events of the symbol regardless of weight). -/
def scoreOne (rules : Rules) (today : ℤ) (events : List StockEvent) (stock : StockSnapshot) :
    ScoredStock :=
  let symbol_events := events.filter (fun e => e.symbol == stock.symbol)
  let profit_score := profitTrendScore stock
  let valuation_score := valuationScore rules stock
  let ev := futureEventScore rules today symbol_events
  let quality_score := qualityScore stock
  let risk_penalty := riskPenalty rules stock
  let final_score :=
    clamp (weightedPositive rules.weights profit_score valuation_score ev.1 quality_score -
      weightedRisk rules.weights risk_penalty) 0 100
  let reasons := profitTrendReasons stock ++ valuationReasons rules stock ++ ev.2 ++
    qualityReasons stock ++ riskReasons rules stock
  { symbol := stock.symbol
    name := stock.name
    exchange := stock.exchange
    sector := stock.sector
    market_cap_cr := stock.market_cap_cr
    pe := stock.pe
    final_score := pyRound2 final_score
    score_breakdown :=
      { profit_trend := pyRound2 profit_score
        valuation := pyRound2 valuation_score
        future_events := pyRound2 ev.1
        quality := pyRound2 quality_score
        risk_penalty := pyRound2 risk_penalty }
    reasons := reasons.take 10
    event_count := symbol_events.length
    metrics := stock.metrics }

/-- Source `scoring.py`, `ScoreEngine.score` (lines 17–79): score every
snapshot (events grouped per symbol in input order) and sort the results by
descending `final_score`, stably (Python `sorted(..., reverse=True)`). -/
def scoreEngineScore (rules : Rules) (today : ℤ) (stocks : List StockSnapshot)
    (events : List StockEvent) : List ScoredStock :=
  (stocks.map (scoreOne rules today events)).mergeSort
    (fun a b => decide (b.final_score ≤ a.final_score))

/-- Source `pipeline.py`, `_apply_universe_filters` (lines 103–119): the
per-snapshot predicate of the universe filter (the loop keeps `s` exactly
when none of the three `continue` conditions fires). -/
def universePred (rules : Rules) (s : StockSnapshot) : Bool :=
  let min_mc := rules.«universe».min_market_cap_cr.getD 0
  let max_mc := rules.«universe».max_market_cap_cr.getD 1000000000
  let exchanges := rules.«universe».exchanges
  let sectors_allowlist := rules.«universe».sectors_allowlist
  !(decide (s.market_cap_cr < min_mc) || decide (max_mc < s.market_cap_cr)) &&
  !(!exchanges.isEmpty && !(exchanges.contains s.exchange)) &&
  !(!sectors_allowlist.isEmpty && !(sectors_allowlist.contains s.sector))

/-- Source `pipeline.py`, `_apply_universe_filters` (lines 103–119). -/
def applyUniverseFilters (rules : Rules) (stocks : List StockSnapshot) : List StockSnapshot :=
  stocks.filter (universePred rules)

/-- Source `pipeline.py`, `_apply_quality_filters` (lines 121–151): the
per-snapshot predicate of the quality filter. -/
def qualityPred (rules : Rules) (s : StockSnapshot) : Bool :=
  let exclude_esm := rules.filters.exclude_esm.getD true
  let exclude_loss := rules.filters.exclude_loss_making.getD true
  let min_profit := rules.filters.min_profit_ttm_cr.getD 0
  let min_yoy := rules.filters.min_profit_yoy_growth_pct.getD (-999)
  let max_pe := rules.filters.max_pe.getD 1000000000
  !(exclude_esm && s.esm_flag) &&
  !(exclude_loss && decide (s.profit_ttm_cr ≤ 0)) &&
  !(decide (s.profit_ttm_cr < min_profit)) &&
  !(decide (pipelineYoyGrowthPct s < min_yoy)) &&
  !(decide (max_pe < s.pe))

/-- Source `pipeline.py`, `_apply_quality_filters` (lines 121–151). -/
def applyQualityFilters (rules : Rules) (stocks : List StockSnapshot) : List StockSnapshot :=
  stocks.filter (qualityPred rules)

/-- Row of the `stock_cache` table (`core/db.py`).  The `fetched_at` TEXT
column is modelled post-parsing: `some t` is a timestamp in days that
`datetime.fromisoformat` accepts; `none` models a missing or unparsable
value (the `except (ValueError, TypeError)` branch).  The remaining
fundamentals columns are copied through unchanged by `get_cached_fundamentals`
and never influence selection, so they are modelled as an opaque payload. -/
structure CacheRow where
  symbol : String
  fetched_at : Option ℚ
  payload : List (String × ℚ) := []
deriving Repr, DecidableEq

/-- Source `core/db.py`, `get_cached_fundamentals` (lines 272–316):
selects the rows whose symbol is in `symbols` (the SQL `WHERE symbol IN`),
then keeps a row iff its `fetched_at` parses and is not before
`cutoff = now - timedelta(days=max_age_days)`.  Time is measured in days. -/
def getCachedFundamentals (now : ℚ) (max_age_days : ℤ) (symbols : List String)
    (rows : List CacheRow) : List CacheRow :=
  if symbols.isEmpty then []
  else
    let cutoff := now - (max_age_days : ℚ)
    (rows.filter (fun r => symbols.contains r.symbol)).filter (fun r =>
      match r.fetched_at with
      | none => false
      | some t => !(decide (t < cutoff)))

/-- Status column of a `runs` row. -/
inductive RunStatus where
  | running
  | completed
  | failed
deriving Repr, DecidableEq

/-- Summary written by `run_scan` on the happy path (`pipeline.py`
lines 81–88, minus the run id/type echoes). -/
structure RunSummary where
  universe_size : ℕ
  eligible_universe : ℕ
  passed_filters : ℕ
  recommended_count : ℕ
deriving Repr, DecidableEq

/-- Row of the `runs` table, restricted to the fields the state machine
touches. -/
structure RunRow where
  run_type : String
  status : RunStatus
  summary : Option RunSummary := none
  error_text : Option String := none
deriving Repr, DecidableEq

/-- Source `core/db.py`, `create_run`: append a new row with
`status = running`; returns the new store and the fresh run id (modelled as
the row's index). -/
def createRun (store : List RunRow) (run_type : String) : List RunRow × ℕ :=
  (store ++ [{ run_type := run_type, status := .running }], store.length)

/-- Update the run row with the given id, if present (SQL `UPDATE … WHERE
id = ?`). -/
def updateRun (store : List RunRow) (i : ℕ) (f : RunRow → RunRow) : List RunRow :=
  match store[i]? with
  | some r => store.set i (f r)
  | none => store

/-- Source `core/db.py`, `complete_run` (lines 122–134): set
`status = completed` and record the summary. -/
def completeRun (store : List RunRow) (i : ℕ) (summary : RunSummary) : List RunRow :=
  updateRun store i (fun r => { r with status := .completed, summary := some summary })

/-- Source `core/db.py`, `fail_run` (lines 137–149): set `status = failed`
and record the error text. -/
def failRun (store : List RunRow) (i : ℕ) (err : String) : List RunRow :=
  updateRun store i (fun r => { r with status := .failed, error_text := some err })

/-- Environment of one scan: the rules, today's date, and the outcomes of
the three fallible stages inside the `try` block of `run_scan` (provider
snapshot call, provider event call, recommendation persistence).  A Python
exception with message `e` is modelled as `Except.error e`. -/
structure ScanEnv where
  rules : Rules
  today : ℤ
  snapshots : Except String (List StockSnapshot)
  events : Except String (List StockEvent)
  insert_outcome : Except String Unit

/-- Body of the `try` block of `run_scan` (`pipeline.py` lines 40–96):
fetch snapshots and events, filter, score, take the top N and persist them
(only when the recommendation list is non-empty — line 78), producing the
summary; the first stage that raises short-circuits with its exception
message. -/
def scanOutcome (env : ScanEnv) : Except String RunSummary :=
  match env.snapshots with
  | .error e => .error e
  | .ok stocks =>
    match env.events with
    | .error e => .error e
    | .ok events =>
      let uni := applyUniverseFilters env.rules stocks
      let passed := applyQualityFilters env.rules uni
      let scored := scoreEngineScore env.rules env.today passed events
      let max_n := env.rules.max_recommendations_per_run.getD 25
      let top := scored.take max_n
      match (if top.isEmpty then Except.ok () else env.insert_outcome) with
      | .error e => .error e
      | .ok _ =>
        .ok { universe_size := stocks.length
              eligible_universe := uni.length
              passed_filters := passed.length
              recommended_count := top.length }

/-- Source `pipeline.py`, `run_scan` (lines 34–101): create the run row
(status `running`) before any external call; then either the try block
completes and the run is marked completed with the summary, or it raises
and the run is marked failed with the exception message, which is
re-raised (the `Except.error` result). -/
def runScan (env : ScanEnv) (run_type : String) (store : List RunRow) :
    List RunRow × Except String RunSummary :=
  let created := createRun store run_type
  match scanOutcome env with
  | .error e => (failRun created.1 created.2 e, .error e)
  | .ok summary => (completeRun created.1 created.2 summary, .ok summary)

/-! ### Helper lemmas (shared across claims) -/

theorem le_clamp (x lo hi : ℚ) : lo ≤ clamp x lo hi := le_max_left lo _

theorem clamp_le (x lo hi : ℚ) (h : lo ≤ hi) : clamp x lo hi ≤ hi :=
  max_le h (min_le_right x hi)

theorem clamp_eq_of_mem (x lo hi : ℚ) (h1 : lo ≤ x) (h2 : x ≤ hi) : clamp x lo hi = x := by
  unfold clamp
  rw [min_eq_left h2, max_eq_right h1]

theorem clamp_eq_max_of_le (x lo hi : ℚ) (h : x ≤ hi) : clamp x lo hi = max lo x := by
  unfold clamp
  rw [min_eq_left h]

theorem roundHalfEven_floor_le (q : ℚ) : ⌊q⌋ ≤ roundHalfEven q := by
  unfold roundHalfEven
  split_ifs <;> omega

theorem roundHalfEven_nonneg (q : ℚ) (h : 0 ≤ q) : 0 ≤ roundHalfEven q :=
  le_trans (Int.le_floor.mpr (by exact_mod_cast h)) (roundHalfEven_floor_le q)

theorem roundHalfEven_le (q : ℚ) (n : ℤ) (h : q ≤ (n : ℚ)) : roundHalfEven q ≤ n := by
  have hfl : ⌊q⌋ ≤ n := by
    have := Int.floor_le_floor h
    simpa using this
  have hfr : (⌊q⌋ : ℚ) ≤ q := Int.floor_le q
  unfold roundHalfEven
  split_ifs with h1 h2 h3
  · exact hfl
  · have hlt : (⌊q⌋ : ℚ) < (n : ℚ) := by linarith
    have : ⌊q⌋ < n := by exact_mod_cast hlt
    omega
  · exact hfl
  · have heq : q - (⌊q⌋ : ℚ) = 1/2 := le_antisymm (not_lt.mp h2) (not_lt.mp h1)
    have hlt : (⌊q⌋ : ℚ) < (n : ℚ) := by linarith
    have : ⌊q⌋ < n := by exact_mod_cast hlt
    omega

theorem pyRound2_nonneg (q : ℚ) (h : 0 ≤ q) : 0 ≤ pyRound2 q := by
  unfold pyRound2
  have := roundHalfEven_nonneg (q * 100) (by linarith)
  positivity

theorem pyRound2_le_100 (q : ℚ) (h : q ≤ 100) : pyRound2 q ≤ 100 := by
  unfold pyRound2
  have h1 : roundHalfEven (q * 100) ≤ 10000 :=
    roundHalfEven_le (q * 100) 10000 (by push_cast; linarith)
  have h2 : (roundHalfEven (q * 100) : ℚ) ≤ 10000 := by exact_mod_cast h1
  linarith

theorem valuationScore_bounds (rules : Rules) (stock : StockSnapshot) :
    0 ≤ valuationScore rules stock ∧ valuationScore rules stock ≤ 100 := by
  unfold valuationScore
  split_ifs with h1 h2 h3
  · norm_num
  · norm_num
  · constructor
    · linarith [le_clamp (100 - (stock.pe - 20) / max 1 (valuationMaxPe rules - 20) * 40) 45 100]
    · exact clamp_le _ 45 100 (by norm_num)
  · constructor
    · exact le_clamp _ 0 45
    · linarith [clamp_le (45 - (stock.pe - valuationMaxPe rules) * 2) 0 45 (by norm_num)]

theorem profitTrendScore_bounds (stock : StockSnapshot) :
    0 ≤ profitTrendScore stock ∧ profitTrendScore stock ≤ 100 :=
  ⟨le_clamp _ 0 100, clamp_le _ 0 100 (by norm_num)⟩

theorem qualityScore_bounds (stock : StockSnapshot) :
    0 ≤ qualityScore stock ∧ qualityScore stock ≤ 100 :=
  ⟨le_clamp _ 0 100, clamp_le _ 0 100 (by norm_num)⟩

theorem riskPenalty_bounds (rules : Rules) (stock : StockSnapshot) :
    0 ≤ riskPenalty rules stock ∧ riskPenalty rules stock ≤ 100 :=
  ⟨le_clamp _ 0 100, clamp_le _ 0 100 (by norm_num)⟩

theorem futureEventScore_bounds (rules : Rules) (today : ℤ) (events : List StockEvent) :
    0 ≤ (futureEventScore rules today events).1 ∧ (futureEventScore rules today events).1 ≤ 100 := by
  unfold futureEventScore
  split_ifs with h
  · norm_num
  · exact ⟨le_clamp _ 0 100, clamp_le _ 0 100 (by norm_num)⟩

/-! ### Concrete inputs used by counterexamples and witnesses -/

/-- Weights putting everything on the profit-trend factor. -/
def wProfitOnly : Weights :=
  { profit_trend := 1, valuation := 0, future_events := 0, quality := 0, risk := 0 }

/-- Rules with `filters.max_pe = 40` (the default) made explicit and no
configured event weights. -/
def exRules : Rules := { weights := wProfitOnly, filters := { max_pe := some 40 } }

/-- Snapshot with `pe = 40` (equal to `max_pe`), flat positive profits. -/
def exStockPe40 : StockSnapshot :=
  { symbol := "A", name := "A", exchange := "NSE", sector := "X",
    market_cap_cr := 1000, pe := 40, profit_ttm_cr := 10, profit_prev_ttm_cr := 10,
    profit_q1_cr := 1, profit_q2_cr := 1, profit_q3_cr := 1, profit_q4_cr := 1,
    promoter_holding_pct := 0, pledge_pct := 0, hni_net_buying_cr := 0,
    esm_flag := false, governance_flag := false }

/-- Snapshot identical to `exStockPe40` except `pe = 30`, inside the
`(20, max_pe]` band. -/
def exStockPe30 : StockSnapshot := { exStockPe40 with pe := 30 }

/-- Snapshot with a non-positive prior TTM profit and a positive current
TTM profit. -/
def exStockZeroPrev : StockSnapshot := { exStockPe40 with profit_prev_ttm_cr := 0 }

/-- Event of a type that has no configured weight. -/
def exEventUnweighted : StockEvent :=
  { symbol := "A", event_type := "unknown_type", event_date := 0, value_cr := 1,
    headline := "h" }

/-- Rules granting weight 10 to `large_order` events. -/
def exRulesEvents : Rules :=
  { weights := wProfitOnly, event_weights := [("large_order", 10)] }

/-- Future-dated `large_order` event (day 5, relative to a scan on day 0). -/
def exEventFuture : StockEvent :=
  { symbol := "A", event_type := "large_order", event_date := 5, value_cr := 1,
    headline := "h" }

/-! ### Claims -/

/-- Rules whose `filters.max_pe` is the degenerate value 10 (below 20). -/
def exRulesLowMaxPe : Rules := { weights := wProfitOnly, filters := { max_pe := some 10 } }

/-- Snapshot identical to `exStockPe40` except `pe = 15`. -/
def exStockPe15 : StockSnapshot := { exStockPe40 with pe := 15 }

/-- Claim C1, counterexample.  First defect: with `max_pe = 40`, a snapshot
with `pe = max_pe = 40` lies in the `(20, max_pe]` band, yet
`_valuation_score` returns 60, not the 45 the claim's linear decay reaches
at `pe = max_pe`.  Second defect: with the degenerate `max_pe = 10` and
`pe = 15 > max_pe`, the claim's third part demands
`45 − 2·(15 − 10) = 35`, but the code's `pe ≤ 20` branch fires first and
returns 100. -/
theorem C1_counterexample :
    ((20 < exStockPe40.pe ∧ exStockPe40.pe ≤ valuationMaxPe exRules) ∧
      valuationScore exRules exStockPe40 = 60 ∧ (60 : ℚ) ≠ 45) ∧
    (valuationMaxPe exRulesLowMaxPe < exStockPe15.pe ∧
      valuationScore exRulesLowMaxPe exStockPe15 = 100 ∧
      (100 : ℚ) ≠ 45 - (exStockPe15.pe - valuationMaxPe exRulesLowMaxPe) * 2) := by
  constructor
  · refine ⟨⟨?_, ?_⟩, ?_, by norm_num⟩
    · norm_num [exStockPe40]
    · norm_num [exStockPe40, exRules, valuationMaxPe]
    · norm_num [valuationScore, exStockPe40, exRules, valuationMaxPe, clamp]
  · refine ⟨?_, ?_, ?_⟩
    · norm_num [exStockPe15, exStockPe40, exRulesLowMaxPe, valuationMaxPe]
    · norm_num [valuationScore, exStockPe15, exStockPe40, exRulesLowMaxPe, valuationMaxPe]
    · norm_num [exStockPe15, exStockPe40, exRulesLowMaxPe, valuationMaxPe]

/-- Claim C1 (amended): for `pe ≤ 20` (including `pe ≤ 0`) the valuation
score is 100 — even when `max_pe < pe ≤ 20` (degenerate configurations);
for `pe` in `(20, max_pe]` it decays linearly from 100 at the rate
`40 / max(1, max_pe − 20)` per unit PE — reaching 60 (not 45) at
`pe = max_pe` whenever `max_pe ≥ 21`; for `pe > max_pe` with `pe > 20` it
is `45 − 2·(pe − max_pe)` floored at 0. -/
theorem C1_valuation_score_cases (rules : Rules) (stock : StockSnapshot) :
    (stock.pe ≤ 20 → valuationScore rules stock = 100) ∧
    (20 < stock.pe → stock.pe ≤ valuationMaxPe rules →
      valuationScore rules stock =
        100 - (stock.pe - 20) / max 1 (valuationMaxPe rules - 20) * 40) ∧
    (21 ≤ valuationMaxPe rules → stock.pe = valuationMaxPe rules →
      valuationScore rules stock = 60) ∧
    (20 < stock.pe → valuationMaxPe rules < stock.pe →
      valuationScore rules stock = max 0 (45 - (stock.pe - valuationMaxPe rules) * 2)) := by
  set M := valuationMaxPe rules with hM
  have hmid : ∀ pe : ℚ, 20 < pe → pe ≤ M →
      clamp (100 - (pe - 20) / max 1 (M - 20) * 40) 45 100 =
        100 - (pe - 20) / max 1 (M - 20) * 40 := by
    intro pe hlo hhi
    have hD1 : (1 : ℚ) ≤ max 1 (M - 20) := le_max_left 1 (M - 20)
    have hDpos : (0 : ℚ) < max 1 (M - 20) := by linarith
    have hle : pe - 20 ≤ max 1 (M - 20) := by
      rcases le_or_lt (M - 20) 1 with hc | hc
      · have hx : max 1 (M - 20) = 1 := max_eq_left hc
        rw [hx]; linarith
      · have hx : max 1 (M - 20) = M - 20 := max_eq_right (le_of_lt hc)
        rw [hx]; linarith
    have hratio : (pe - 20) / max 1 (M - 20) ≤ 1 := (div_le_one hDpos).mpr hle
    have hratio0 : 0 ≤ (pe - 20) / max 1 (M - 20) :=
      div_nonneg (by linarith) (le_of_lt hDpos)
    have hu : (pe - 20) / max 1 (M - 20) * 40 ≤ 40 := by nlinarith
    have hl : 0 ≤ (pe - 20) / max 1 (M - 20) * 40 := by nlinarith
    exact clamp_eq_of_mem _ 45 100 (by linarith) (by linarith)
  refine ⟨?_, ?_, ?_, ?_⟩
  · intro h
    unfold valuationScore
    rw [← hM]
    split_ifs with hb1 <;> rfl
  · intro h1 h2
    unfold valuationScore
    rw [← hM]
    split_ifs with hb1 hb2
    · exact absurd hb1 (by linarith)
    · exact absurd hb2 (by linarith)
    · exact hmid stock.pe h1 h2
  · intro h1 h2
    unfold valuationScore
    rw [← hM]
    have h20 : (20 : ℚ) < stock.pe := by rw [h2]; linarith
    split_ifs with hb1 hb2 hb3
    · exact absurd hb1 (by linarith)
    · exact absurd hb2 (by linarith)
    · rw [hmid stock.pe h20 (le_of_eq h2), h2]
      have hD : max 1 (M - 20) = M - 20 := max_eq_right (by linarith)
      rw [hD]
      have hne : M - 20 ≠ 0 := ne_of_gt (by linarith)
      rw [div_self hne]
      ring
    · exact absurd (le_of_eq h2) hb3
  · intro h1 h2
    unfold valuationScore
    rw [← hM]
    split_ifs with hb1 hb2 hb3
    · exact absurd hb1 (by linarith)
    · exact absurd hb2 (by linarith)
    · exact absurd hb3 (by linarith)
    · exact clamp_eq_max_of_le _ 0 45 (by linarith)

/-- Claim C1, witness: `pe = 30` with `max_pe = 40` lands in the middle
band and scores `100 − (10/20)·40 = 80`. -/
theorem C1_witness :
    valuationScore exRules exStockPe30 =
      100 - (exStockPe30.pe - 20) / max 1 (valuationMaxPe exRules - 20) * 40 :=
  (C1_valuation_score_cases exRules exStockPe30).2.1
    (by norm_num [exStockPe30, exStockPe40])
    (by norm_num [exStockPe30, exStockPe40, exRules, valuationMaxPe])

/-- Claim C9: `_valuation_score` is total for every configuration — the
middle-branch divisor `max(1, max_pe − 20)` is at least 1 (so never zero or
negative, even for `max_pe ≤ 20`), and the returned score always lies in
[0, 100]. -/
theorem C9_valuation_total (rules : Rules) (stock : StockSnapshot) :
    1 ≤ max 1 (valuationMaxPe rules - 20) ∧
      0 ≤ valuationScore rules stock ∧ valuationScore rules stock ≤ 100 :=
  ⟨le_max_left 1 _, (valuationScore_bounds rules stock).1, (valuationScore_bounds rules stock).2⟩

/-- Claim C5: the zero-baseline year-over-year growth rule is identical in
profit-trend scoring (`_profit_trend_score`) and in the quality filter
(`_apply_quality_filters`): prior TTM ≤ 0 with current TTM > 0 gives 100%,
both ≤ 0 gives 0%, and a positive prior gives the exact relative change
against `|prev|`. -/
theorem C5_yoy_zero_baseline (s : StockSnapshot) :
    yoyGrowthPct s = pipelineYoyGrowthPct s ∧
    (s.profit_prev_ttm_cr ≤ 0 → 0 < s.profit_ttm_cr → yoyGrowthPct s = 100) ∧
    (s.profit_prev_ttm_cr ≤ 0 → s.profit_ttm_cr ≤ 0 → yoyGrowthPct s = 0) ∧
    (0 < s.profit_prev_ttm_cr →
      yoyGrowthPct s = ((s.profit_ttm_cr - s.profit_prev_ttm_cr) / |s.profit_prev_ttm_cr|) * 100) := by
  refine ⟨?_, ?_, ?_, ?_⟩
  · unfold yoyGrowthPct pipelineYoyGrowthPct
    rcases le_or_lt s.profit_prev_ttm_cr 0 with h | h
    · rw [if_pos h, if_neg (not_lt.mpr h)]
    · rw [if_neg (not_le.mpr h), if_pos h]
  · intro h1 h2
    unfold yoyGrowthPct
    rw [if_pos h1, if_pos h2]
  · intro h1 h2
    unfold yoyGrowthPct
    rw [if_pos h1, if_neg (not_lt.mpr h2)]
  · intro h
    unfold yoyGrowthPct
    rw [if_neg (not_le.mpr h)]

/-- Claim C5, witness: prior TTM profit 0 with current TTM profit 10 gives
100% growth, in both formulations. -/
theorem C5_witness :
    yoyGrowthPct exStockZeroPrev = 100 ∧
      yoyGrowthPct exStockZeroPrev = pipelineYoyGrowthPct exStockZeroPrev :=
  ⟨(C5_yoy_zero_baseline exStockZeroPrev).2.1
      (by norm_num [exStockZeroPrev, exStockPe40])
      (by norm_num [exStockZeroPrev, exStockPe40]),
    (C5_yoy_zero_baseline exStockZeroPrev).1⟩

/-- Claim C6: both filter stages return a subsequence of their input — no
element is added, duplicated or reordered. -/
theorem C6_filters_sublist (rules : Rules) (stocks : List StockSnapshot) :
    (applyUniverseFilters rules stocks).Sublist stocks ∧
      (applyQualityFilters rules stocks).Sublist stocks :=
  ⟨List.filter_sublist stocks, List.filter_sublist stocks⟩

/-- Claim C10: a future-dated event has its age clamped to 0 days, hence
receives the maximal recency factor 1 and contributes exactly its
configured weight inside the event-scoring loop. -/
theorem C10_future_event_full_weight (rules : Rules) (today : ℤ) (e : StockEvent)
    (h : today < e.event_date) :
    ageDays today e = 0 ∧ recencyFactor today e = 1 ∧
      (∀ acc : ℚ × List String, 0 < lookupEventWeight rules.event_weights e.event_type →
        (eventStep rules today acc e).1 =
          acc.1 + lookupEventWeight rules.event_weights e.event_type) := by
  have hage : ageDays today e = 0 := by
    unfold ageDays
    exact max_eq_left (by omega)
  have hrec : recencyFactor today e = 1 := by
    unfold recencyFactor
    rw [hage]
    norm_num [clamp]
  refine ⟨hage, hrec, ?_⟩
  intro acc hw
  unfold eventStep
  rw [if_neg (not_le.mpr hw), hrec, mul_one]

/-- Claim C10, witness: an event dated day 5 scored on day 0 with weight 10
contributes exactly 10 on top of an accumulator of 0. -/
theorem C10_witness :
    (eventStep exRulesEvents 0 (0, []) exEventFuture).1 =
      0 + lookupEventWeight exRulesEvents.event_weights exEventFuture.event_type :=
  ((C10_future_event_full_weight exRulesEvents 0 exEventFuture (by norm_num [exEventFuture])).2.2)
    (0, []) (by norm_num [exRulesEvents, exEventFuture, lookupEventWeight, List.find?])

/-- Unrolling the event-accumulation fold: the accumulated raw score is the
sum of weight × recency over the qualifying events (positive configured
weight), and the collected labels are those of the qualifying events, in
order. -/
theorem eventFold_eq (rules : Rules) (today : ℤ) (events : List StockEvent) :
    ∀ (a : ℚ) (l : List String),
      events.foldl (eventStep rules today) (a, l) =
        (a + ((events.filter fun e =>
              decide (0 < lookupEventWeight rules.event_weights e.event_type)).map
            fun e => lookupEventWeight rules.event_weights e.event_type * recencyFactor today e).sum,
          l ++ ((events.filter fun e =>
              decide (0 < lookupEventWeight rules.event_weights e.event_type)).map
            fun e => e.event_type ++ " (" ++ toString e.event_date ++ ")")) := by
  induction events with
  | nil => intro a l; simp
  | cons e es ih =>
    intro a l
    simp only [List.foldl_cons, List.filter_cons]
    by_cases h : lookupEventWeight rules.event_weights e.event_type ≤ 0
    · have hd : decide (0 < lookupEventWeight rules.event_weights e.event_type) = false := by
        simp [not_lt.mpr h]
      rw [hd]
      have hstep : eventStep rules today (a, l) e = (a, l) := by
        unfold eventStep
        rw [if_pos h]
      rw [hstep]
      simp only [Bool.false_eq_true, if_false]
      exact ih a l
    · have hpos : 0 < lookupEventWeight rules.event_weights e.event_type := not_le.mp h
      have hd : decide (0 < lookupEventWeight rules.event_weights e.event_type) = true := by
        simp [hpos]
      rw [hd]
      have hstep : eventStep rules today (a, l) e =
          (a + lookupEventWeight rules.event_weights e.event_type * recencyFactor today e,
           l ++ [e.event_type ++ " (" ++ toString e.event_date ++ ")"]) := by
        unfold eventStep
        rw [if_neg h]
      rw [hstep, ih]
      simp only [if_true, List.map_cons, List.sum_cons]
      rw [Prod.mk.injEq]
      exact ⟨by ring, by simp⟩

/-- Claim C3, counterexample: a non-empty event list whose single event has
no positive configured weight (zero qualifying events) yields score 0 but
an *empty* reason list — not the single string "No recent qualifying
events", which `_future_event_score` emits only for an empty event list. -/
theorem C3_counterexample :
    lookupEventWeight exRules.event_weights exEventUnweighted.event_type ≤ 0 ∧
      futureEventScore exRules 0 [exEventUnweighted] = (0, []) ∧
      ([] : List String) ≠ ["No recent qualifying events"] := by
  refine ⟨by norm_num [exRules, lookupEventWeight, exEventUnweighted, List.find?], ?_, by simp⟩
  decide

/-- Claim C3 (amended): an *empty* event list gives score 0 with exactly
the reason "No recent qualifying events"; a non-empty list with zero
qualifying events gives score 0 with an empty reason list; in general the
score is the sum of weight × clamp(1 − age_days/90, 0.35, 1.0) over the
qualifying events, clamped to [0, 100]. -/
theorem C3_future_event_score (rules : Rules) (today : ℤ) (events : List StockEvent) :
    (events = [] → futureEventScore rules today events = (0, ["No recent qualifying events"])) ∧
    (events ≠ [] → (∀ e ∈ events, lookupEventWeight rules.event_weights e.event_type ≤ 0) →
      futureEventScore rules today events = (0, [])) ∧
    (events ≠ [] → (futureEventScore rules today events).1 =
      clamp (((events.filter fun e =>
          decide (0 < lookupEventWeight rules.event_weights e.event_type)).map
        fun e => lookupEventWeight rules.event_weights e.event_type * recencyFactor today e).sum) 0 100) ∧
    (0 ≤ (futureEventScore rules today events).1 ∧ (futureEventScore rules today events).1 ≤ 100) := by
  refine ⟨?_, ?_, ?_, futureEventScore_bounds rules today events⟩
  · intro h
    subst h
    rfl
  · intro hne hall
    have hfil : (events.filter fun e =>
        decide (0 < lookupEventWeight rules.event_weights e.event_type)) = [] := by
      rw [List.filter_eq_nil_iff]
      intro e he
      simpa using not_lt.mpr (hall e he)
    unfold futureEventScore
    rw [if_neg (by simpa [List.isEmpty_iff] using hne)]
    rw [eventFold_eq rules today events 0 []]
    rw [hfil]
    simp [clamp]
  · intro hne
    unfold futureEventScore
    rw [if_neg (by simpa [List.isEmpty_iff] using hne)]
    rw [eventFold_eq rules today events 0 []]
    simp only [zero_add]

/-- Claim C3, witness: the empty-list branch and the zero-qualifying
branch, applied at concrete inputs. -/
theorem C3_witness :
    futureEventScore exRules 0 [] = (0, ["No recent qualifying events"]) ∧
      futureEventScore exRules 7 [exEventUnweighted] = (0, []) :=
  ⟨(C3_future_event_score exRules 0 []).1 rfl,
    (C3_future_event_score exRules 7 [exEventUnweighted]).2.1 (by simp)
      (by intro e he
          simp only [List.mem_singleton] at he
          subst he
          norm_num [exRules, lookupEventWeight, exEventUnweighted, List.find?])⟩

/-- Shared computation: the `final_score` field assembled by the per-stock
body of `ScoreEngine.score` is the two-decimal rounding of the clamped
weighted combination of the sub-scores. -/
theorem scoreOne_final_score_eq (rules : Rules) (today : ℤ) (events : List StockEvent)
    (stock : StockSnapshot) :
    (scoreOne rules today events stock).final_score =
      pyRound2 (clamp ((profitTrendScore stock * rules.weights.profit_trend +
        valuationScore rules stock * rules.weights.valuation +
        (futureEventScore rules today (events.filter fun e => e.symbol == stock.symbol)).1 *
          rules.weights.future_events +
        qualityScore stock * rules.weights.quality) /
        (rules.weights.profit_trend + rules.weights.valuation +
          rules.weights.future_events + rules.weights.quality) -
        riskPenalty rules stock * (rules.weights.risk / 100)) 0 100) := by
  simp only [scoreOne, weightedPositive, weightedRisk, positiveWeightSum]

/-- Computation at the concrete counterexample input: the profit sub-score
is 160/3. -/
theorem profitTrendScore_exStockPe40 : profitTrendScore exStockPe40 = 160/3 := by
  norm_num [profitTrendScore, yoyGrowthPct, increasingSteps, exStockPe40, clamp]

/-- Computation: `round(160/3, 2) = 53.33`. -/
theorem pyRound2_160_thirds : pyRound2 ((160:ℚ)/3) = 5333/100 := by
  have hf : ((160:ℚ)/3 * 100) = 16000/3 := by norm_num
  have hfl : (⌊(16000:ℚ)/3⌋ : ℤ) = 5333 := by
    rw [Int.floor_eq_iff]
    norm_num
  norm_num [pyRound2, roundHalfEven, hf, hfl]

/-- Claim C2, counterexample: with all weight on the profit-trend factor
and a stock whose profit sub-score is 160/3, the clamp formula evaluates to
160/3, but the `final_score` carried by the `ScoredStock` that
`ScoreEngine.score` produces is `round(160/3, 2) = 53.33 ≠ 160/3`. -/
theorem C2_counterexample :
    0 < positiveWeightSum exRules.weights ∧
      (scoreOne exRules 0 [] exStockPe40).final_score ≠
        clamp ((profitTrendScore exStockPe40 * exRules.weights.profit_trend +
          valuationScore exRules exStockPe40 * exRules.weights.valuation +
          (futureEventScore exRules 0 []).1 * exRules.weights.future_events +
          qualityScore exStockPe40 * exRules.weights.quality) /
          (exRules.weights.profit_trend + exRules.weights.valuation +
            exRules.weights.future_events + exRules.weights.quality) -
          riskPenalty exRules exStockPe40 * (exRules.weights.risk / 100)) 0 100 := by
  refine ⟨by norm_num [positiveWeightSum, exRules, wProfitOnly], ?_⟩
  rw [scoreOne_final_score_eq]
  have hv : valuationScore exRules exStockPe40 = 60 := by
    norm_num [valuationScore, exStockPe40, exRules, valuationMaxPe, clamp]
  have hq : qualityScore exStockPe40 = 0 := by
    norm_num [qualityScore, exStockPe40, clamp]
  have hr : riskPenalty exRules exStockPe40 = 0 := by
    norm_num [riskPenalty, exStockPe40, exRules, riskMaxPledge, sharpProfitDrop, clamp]
  have he : (futureEventScore exRules 0
      (List.filter (fun e => e.symbol == exStockPe40.symbol) [])).1 = 0 := rfl
  have he2 : (futureEventScore exRules 0 ([] : List StockEvent)).1 = 0 := rfl
  have harg : clamp ((160:ℚ)/3) 0 100 = 160/3 := by norm_num [clamp]
  norm_num [profitTrendScore_exStockPe40, hv, hq, hr, he, he2, exRules, wProfitOnly, harg,
    pyRound2_160_thirds]

/-- Claim C2 (amended): under the positive-weight invariant, the
`final_score` field produced by `ScoreEngine.score` equals the clamp
formula of the claim rounded half-to-even to two decimal places (Python's
`round(x, 2)`, applied when the `ScoredStock` is assembled at line 65);
the value computed at line 47, before rounding, is exactly the clamp
formula. -/
theorem C2_final_score (rules : Rules) (today : ℤ) (events : List StockEvent)
    (stock : StockSnapshot) (h : 0 < positiveWeightSum rules.weights) :
    (scoreOne rules today events stock).final_score =
      pyRound2 (clamp ((profitTrendScore stock * rules.weights.profit_trend +
        valuationScore rules stock * rules.weights.valuation +
        (futureEventScore rules today (events.filter fun e => e.symbol == stock.symbol)).1 *
          rules.weights.future_events +
        qualityScore stock * rules.weights.quality) /
        (rules.weights.profit_trend + rules.weights.valuation +
          rules.weights.future_events + rules.weights.quality) -
        riskPenalty rules stock * (rules.weights.risk / 100)) 0 100) :=
  scoreOne_final_score_eq rules today events stock

/-- Claim C2, witness: the amended statement instantiated at the
counterexample's concrete input. -/
theorem C2_witness :
    (scoreOne exRules 0 [] exStockPe40).final_score =
      pyRound2 (clamp ((profitTrendScore exStockPe40 * exRules.weights.profit_trend +
        valuationScore exRules exStockPe40 * exRules.weights.valuation +
        (futureEventScore exRules 0 (List.filter (fun e => e.symbol == exStockPe40.symbol) [])).1 *
          exRules.weights.future_events +
        qualityScore exStockPe40 * exRules.weights.quality) /
        (exRules.weights.profit_trend + exRules.weights.valuation +
          exRules.weights.future_events + exRules.weights.quality) -
        riskPenalty exRules exStockPe40 * (exRules.weights.risk / 100)) 0 100) :=
  C2_final_score exRules 0 [] exStockPe40 (by norm_num [positiveWeightSum, exRules, wProfitOnly])

/-- Claim C4: every `ScoredStock` produced by `ScoreEngine.score` (over any
snapshot list, event list and rules satisfying the weights invariant) has
`final_score` in [0, 100] and all five `score_breakdown` entries in
[0, 100]. -/
theorem C4_scores_bounded (rules : Rules) (today : ℤ) (stocks : List StockSnapshot)
    (events : List StockEvent) (hw : 0 < positiveWeightSum rules.weights)
    (hr : 0 ≤ rules.weights.risk) :
    ∀ s ∈ scoreEngineScore rules today stocks events,
      (0 ≤ s.final_score ∧ s.final_score ≤ 100) ∧
      (0 ≤ s.score_breakdown.profit_trend ∧ s.score_breakdown.profit_trend ≤ 100) ∧
      (0 ≤ s.score_breakdown.valuation ∧ s.score_breakdown.valuation ≤ 100) ∧
      (0 ≤ s.score_breakdown.future_events ∧ s.score_breakdown.future_events ≤ 100) ∧
      (0 ≤ s.score_breakdown.quality ∧ s.score_breakdown.quality ≤ 100) ∧
      (0 ≤ s.score_breakdown.risk_penalty ∧ s.score_breakdown.risk_penalty ≤ 100) := by
  intro s hs
  rw [scoreEngineScore, List.mem_mergeSort, List.mem_map] at hs
  obtain ⟨stock, _, rfl⟩ := hs
  have hround : ∀ x : ℚ, 0 ≤ x → x ≤ 100 → 0 ≤ pyRound2 x ∧ pyRound2 x ≤ 100 := fun x h1 h2 =>
    ⟨pyRound2_nonneg x h1, pyRound2_le_100 x h2⟩
  simp only [scoreOne]
  exact ⟨hround _ (le_clamp _ 0 100) (clamp_le _ 0 100 (by norm_num)),
    hround _ (profitTrendScore_bounds stock).1 (profitTrendScore_bounds stock).2,
    hround _ (valuationScore_bounds rules stock).1 (valuationScore_bounds rules stock).2,
    hround _ (futureEventScore_bounds rules today _).1 (futureEventScore_bounds rules today _).2,
    hround _ (qualityScore_bounds stock).1 (qualityScore_bounds stock).2,
    hround _ (riskPenalty_bounds rules stock).1 (riskPenalty_bounds rules stock).2⟩

/-- Claim C4, witness: the bound holds for the single output of scoring the
one-element universe `[exStockPe40]` under `exRules`. -/
theorem C4_witness :
    0 ≤ (scoreOne exRules 0 [] exStockPe40).final_score ∧
      (scoreOne exRules 0 [] exStockPe40).final_score ≤ 100 :=
  (C4_scores_bounded exRules 0 [exStockPe40] []
    (by norm_num [positiveWeightSum, exRules, wProfitOnly])
    (by norm_num [exRules, wProfitOnly])
    (scoreOne exRules 0 [] exStockPe40)
    (by rw [scoreEngineScore, List.mem_mergeSort]
        simp)).1

/-- Membership characterization of the fundamentals-cache read: a row is
returned iff it is a stored row for a requested symbol whose timestamp
parses and is not before `now − max_age_days` (days). -/
theorem getCached_mem_iff (now : ℚ) (max_age_days : ℤ) (symbols : List String)
    (rows : List CacheRow) (r : CacheRow) :
    r ∈ getCachedFundamentals now max_age_days symbols rows ↔
      (r ∈ rows ∧ symbols.contains r.symbol = true ∧
        ∃ t, r.fetched_at = some t ∧ now - (max_age_days : ℚ) ≤ t) := by
  simp only [getCachedFundamentals]
  by_cases hs : symbols.isEmpty
  · rw [if_pos hs]
    have h0 : symbols = [] := List.isEmpty_iff.mp hs
    subst h0
    simp
  · rw [if_neg hs]
    simp only [List.mem_filter]
    constructor
    · rintro ⟨⟨hrow, hcont⟩, hpred⟩
      refine ⟨hrow, hcont, ?_⟩
      cases hfa : r.fetched_at with
      | none => rw [hfa] at hpred; simp at hpred
      | some t =>
        refine ⟨t, rfl, ?_⟩
        rw [hfa] at hpred
        simp only [Bool.not_eq_true', decide_eq_false_iff_not, not_lt] at hpred
        linarith
    · rintro ⟨hrow, hcont, t, hfa, hle⟩
      refine ⟨⟨hrow, hcont⟩, ?_⟩
      rw [hfa]
      simp only [Bool.not_eq_true', decide_eq_false_iff_not, not_lt]
      linarith

/-- Claim C7: `get_cached_fundamentals` returns exactly the requested rows
whose `fetched_at` parses and is within `max_age_days` days of now; a row
fetched `max_age_days + 1` days ago is excluded, one fetched
`max_age_days − 1` days ago is included, and rows with a missing or
unparsable timestamp are excluded. -/
theorem C7_cache_freshness (now : ℚ) (max_age_days : ℤ) (symbols : List String)
    (rows : List CacheRow) :
    (∀ r, r ∈ getCachedFundamentals now max_age_days symbols rows ↔
      (r ∈ rows ∧ symbols.contains r.symbol = true ∧
        ∃ t, r.fetched_at = some t ∧ now - (max_age_days : ℚ) ≤ t)) ∧
    (∀ r ∈ rows, r.fetched_at = some (now - ((max_age_days : ℚ) + 1)) →
      r ∉ getCachedFundamentals now max_age_days symbols rows) ∧
    (∀ r ∈ rows, symbols.contains r.symbol = true →
      r.fetched_at = some (now - ((max_age_days : ℚ) - 1)) →
      r ∈ getCachedFundamentals now max_age_days symbols rows) ∧
    (∀ r ∈ rows, r.fetched_at = none →
      r ∉ getCachedFundamentals now max_age_days symbols rows) := by
  refine ⟨fun r => getCached_mem_iff now max_age_days symbols rows r, ?_, ?_, ?_⟩
  · intro r _ hfa hmem
    obtain ⟨_, _, t, hfa2, hle⟩ := (getCached_mem_iff now max_age_days symbols rows r).mp hmem
    rw [hfa] at hfa2
    injection hfa2 with ht
    rw [← ht] at hle
    linarith
  · intro r hrow hcont hfa
    exact (getCached_mem_iff now max_age_days symbols rows r).mpr
      ⟨hrow, hcont, now - ((max_age_days : ℚ) - 1), hfa, by linarith⟩
  · intro r _ hfa hmem
    obtain ⟨_, _, t, hfa2, _⟩ := (getCached_mem_iff now max_age_days symbols rows r).mp hmem
    rw [hfa] at hfa2
    exact Option.noConfusion hfa2

/-- Cache row fetched 9 days before a reference time of day 100. -/
def exCacheFresh : CacheRow := { symbol := "A", fetched_at := some 91 }

/-- Cache row fetched 11 days before a reference time of day 100. -/
def exCacheStale : CacheRow := { symbol := "A", fetched_at := some 89 }

/-- Cache row whose timestamp did not parse. -/
def exCacheBad : CacheRow := { symbol := "A", fetched_at := none }

/-- Claim C7, witness: with `now = 100` and `max_age_days = 10`, the row
fetched 9 days ago is returned, while the rows fetched 11 days ago or with
an unparsable timestamp are not. -/
theorem C7_witness :
    exCacheFresh ∈ getCachedFundamentals 100 10 ["A"] [exCacheFresh, exCacheStale, exCacheBad] ∧
    exCacheStale ∉ getCachedFundamentals 100 10 ["A"] [exCacheFresh, exCacheStale, exCacheBad] ∧
    exCacheBad ∉ getCachedFundamentals 100 10 ["A"] [exCacheFresh, exCacheStale, exCacheBad] := by
  have hc := C7_cache_freshness 100 10 ["A"] [exCacheFresh, exCacheStale, exCacheBad]
  refine ⟨?_, ?_, ?_⟩
  · exact hc.2.2.1 exCacheFresh (by simp) (by norm_num [exCacheFresh])
      (by norm_num [exCacheFresh])
  · exact hc.2.1 exCacheStale (by simp) (by norm_num [exCacheStale])
  · exact hc.2.2.2 exCacheBad (by simp) rfl

/-- The run row created by `create_run` sits at the fresh run id. -/
theorem createRun_getElem (store : List RunRow) (t : String) :
    (createRun store t).1[store.length]? = some { run_type := t, status := .running } := by
  unfold createRun
  exact List.getElem?_concat_length store _

/-- Updating a run row leaves it at its id, updated. -/
theorem updateRun_getElem (store : List RunRow) (i : ℕ) (f : RunRow → RunRow) (r : RunRow)
    (h : store[i]? = some r) : (updateRun store i f)[i]? = some (f r) := by
  unfold updateRun
  rw [h]
  have hi : i < store.length := by
    by_contra hc
    push_neg at hc
    simp [List.getElem?_eq_none hc] at h
  simp [List.getElem?_set_self', List.getElem?_eq_getElem hi]

/-- Updating a run row preserves the number of runs. -/
theorem updateRun_length (store : List RunRow) (i : ℕ) (f : RunRow → RunRow) :
    (updateRun store i f).length = store.length := by
  unfold updateRun
  cases store[i]? <;> simp

/-- Claim C8: every invocation of `run_scan` appends exactly one run row,
and that row ends in `failed` with the exception message recorded as
`error_text` exactly when the result re-raises that exception
(`Except.error`), or in `completed` with the summary recorded exactly when
the run is exception-free (`Except.ok`); it never remains `running`, and
one of the two outcomes always holds. -/
theorem C8_run_state_machine (env : ScanEnv) (run_type : String) (store : List RunRow) :
    ∃ row : RunRow,
      (runScan env run_type store).1[store.length]? = some row ∧
      (runScan env run_type store).1.length = store.length + 1 ∧
      row.run_type = run_type ∧
      row.status ≠ RunStatus.running ∧
      (∀ e, (runScan env run_type store).2 = Except.error e →
        row.status = RunStatus.failed ∧ row.error_text = some e) ∧
      (∀ sm, (runScan env run_type store).2 = Except.ok sm →
        row.status = RunStatus.completed ∧ row.summary = some sm) ∧
      ((∃ e, (runScan env run_type store).2 = Except.error e) ∨
        (∃ sm, (runScan env run_type store).2 = Except.ok sm)) := by
  have hnew := createRun_getElem store run_type
  have hlen : (createRun store run_type).1.length = store.length + 1 := by
    unfold createRun
    simp
  have hid : (createRun store run_type).2 = store.length := rfl
  rcases hout : scanOutcome env with e | sm
  · refine ⟨⟨run_type, RunStatus.failed, none, some e⟩, ?_, ?_, rfl, by simp, ?_, ?_, ?_⟩
    · simp only [runScan, hout]
      rw [hid]
      exact updateRun_getElem _ _ _ _ hnew
    · simp only [runScan, hout]
      rw [hid, failRun, updateRun_length, hlen]
    · intro e2 he2
      simp only [runScan, hout] at he2
      injection he2 with he3
      subst he3
      exact ⟨rfl, rfl⟩
    · intro sm hsm
      simp only [runScan, hout] at hsm
      exact Except.noConfusion hsm
    · left
      exact ⟨e, by simp only [runScan, hout]⟩
  · refine ⟨⟨run_type, RunStatus.completed, some sm, none⟩, ?_, ?_, rfl, by simp, ?_, ?_, ?_⟩
    · simp only [runScan, hout]
      rw [hid]
      exact updateRun_getElem _ _ _ _ hnew
    · simp only [runScan, hout]
      rw [hid, completeRun, updateRun_length, hlen]
    · intro e2 he2
      simp only [runScan, hout] at he2
      exact Except.noConfusion he2
    · intro sm2 hsm2
      simp only [runScan, hout] at hsm2
      injection hsm2 with hsm3
      subst hsm3
      exact ⟨rfl, rfl⟩
    · right
      exact ⟨sm, by simp only [runScan, hout]⟩

/-- Environment whose provider snapshot call raises with message "boom". -/
def exEnvErr : ScanEnv :=
  { rules := exRules, today := 0, snapshots := Except.error "boom",
    events := Except.ok [], insert_outcome := Except.ok () }

/-- Claim C8, witness: a provider failure with message "boom" on an empty
store yields a failed run row at id 0 carrying that message, and the
exception is re-raised. -/
theorem C8_witness :
    (∃ row : RunRow, (runScan exEnvErr "manual" []).1[0]? = some row ∧
      row.status = RunStatus.failed ∧ row.error_text = some "boom") ∧
    (runScan exEnvErr "manual" []).2 = Except.error "boom" := by
  obtain ⟨row, h1, _, _, _, h5, _, h7⟩ := C8_run_state_machine exEnvErr "manual" []
  have herr : (runScan exEnvErr "manual" []).2 = Except.error "boom" := rfl
  exact ⟨⟨row, h1, (h5 "boom" herr).1, (h5 "boom" herr).2⟩, herr⟩

end StockMvp
